import Mathlib

/-!
Verification of the maternal-mortality dashboard (`app.py`) against its
specification.  The Python program is embedded shallowly: pandas columns
become fields of a record type, the load-time coercions and the single
Dash callback become pure Lean functions, and plotly figures are modelled
by the data that determines them.  Machine floats are modelled by `ℚ`
(the spec speaks of exact arithmetic).
-/

namespace MMA

/-- Truncation toward zero, the behaviour of `astype(int)` on a float. -/
def ratTrunc (q : ℚ) : ℤ := if 0 ≤ q then ⌊q⌋ else ⌈q⌉

/-- One raw CSV row, after pandas parsing of cells.  A numeric cell that is
missing or unparseable is `none` (pandas `to_numeric(errors="coerce")`
maps both to NaN); an absent region cell is `none`. -/
structure Row where
  anio : ℤ
  codigoRaw : String
  nombreMunicipio : String
  regionRaw : Option String
  casosRaw : Option ℚ
  pobRaw : Option ℚ
deriving DecidableEq, Repr

/-- `pd.to_numeric(col, errors="coerce").fillna(0).astype(int)` (app.py
lines 28-29): missing/unparseable becomes 0, a parsed number is truncated
toward zero. -/
def coerceNum (o : Option ℚ) : ℤ :=
  match o with
  | none => 0
  | some q => ratTrunc q

/-- Longest digit prefix of a character list (`\d+` greediness). -/
def takeDigits : List Char → List Char
  | [] => []
  | c :: cs => if c.isDigit then c :: takeDigits cs else []

/-- First maximal run of digits in a character list, or `none` when the
list has no digit (`str.extract(r"(\d+)")`, app.py line 30). -/
def firstRun : List Char → Option (List Char)
  | [] => none
  | c :: cs => if c.isDigit then some (c :: takeDigits cs) else firstRun cs

/-- Python `str.zfill(5)`: left-pad with zeros to width 5; strings of
length 5 or more are returned unchanged. -/
def zfill5 (s : String) : String :=
  if s.length < 5 then String.mk (List.replicate (5 - s.length) '0') ++ s else s

/-- `CodigoMunicipio` normalization (app.py line 30):
`astype(str).str.extract(r"(\d+)").str.zfill(5)` — take the first digit
run and zero-pad it; rows without a digit run get NaN (`none`). -/
def normCode (s : String) : Option String :=
  (firstRun s.data).map (fun l => zfill5 (String.mk l))

/-- One loaded record after the preparation block (app.py lines 28-36). -/
structure Rec where
  year : ℤ
  codigo : Option String
  nombreMunicipio : String
  region : String
  casos : ℤ
  pob : ℤ
  tasa : Option ℚ
deriving DecidableEq, Repr

/-- Load one row: coerce the numeric fields, normalize the municipality
code, default the region to the sentinel, and derive `tasa_100k`, which is
NaN except where `NumeroPoblacionObjetivo > 0` (app.py lines 28-36). -/
def loadRow (r : Row) : Rec :=
  let casos := coerceNum r.casosRaw
  let pob := coerceNum r.pobRaw
  { year := r.anio
    codigo := normCode r.codigoRaw
    nombreMunicipio := r.nombreMunicipio
    region := r.regionRaw.getD "Sin región"
    casos := casos
    pob := pob
    tasa := if 0 < pob then some ((casos : ℚ) / (pob : ℚ) * 100000) else none }

/-- Insertion step of a stable insertion sort with a boolean order. -/
def insSorted (le : α → α → Bool) (x : α) : List α → List α
  | [] => [x]
  | y :: ys => if le x y then x :: y :: ys else y :: insSorted le x ys

/-- Insertion sort with a boolean order; models the ascending key order of
pandas `groupby(..., sort=True)` and `sorted(...)`. -/
def isort (le : α → α → Bool) : List α → List α
  | [] => []
  | x :: xs => insSorted le x (isort le xs)

/-- Per-municipality historical aggregate row (app.py lines 42-50). -/
structure Agg where
  codigo : String
  casos : ℤ
  pob : ℤ
  nombreMunicipio : String
  region : String
  tasa : Option ℚ
deriving DecidableEq, Repr

/-- `df.groupby("CodigoMunicipio").agg(...)` (app.py lines 42-50): group
keys are the distinct non-NaN codes in ascending order (pandas groupby
drops NaN keys and sorts); each group sums cases and population and keeps
the first name/region; the aggregate rate uses `replace({0: nan})`, so it
is undefined exactly when the summed population is 0; finally the key
column is re-zfilled (line 50). -/
def muniAggOf (recs : List Rec) : List Agg :=
  (isort (fun a b : String => a ≤ b) ((recs.filterMap (·.codigo)).dedup)).map
    (fun c =>
      let g := recs.filter (fun r => r.codigo = some c)
      let sc := (g.map (·.casos)).sum
      let sp := (g.map (·.pob)).sum
      { codigo := zfill5 c
        casos := sc
        pob := sp
        nombreMunicipio := (g.map (·.nombreMunicipio)).headD ""
        region := (g.map (·.region)).headD ""
        tasa := if sp = 0 then none else some ((sc : ℚ) / (sp : ℚ) * 100000) })

/-- `Series.quantile(0.95)` with the default linear interpolation over the
sorted non-NaN values, or `none` on an empty series (app.py lines 52-53). -/
def quantile95 (vals : List ℚ) : Option ℚ :=
  match vals with
  | [] => none
  | _ =>
    let s := isort (fun a b : ℚ => a ≤ b) vals
    let pos : ℚ := ((s.length : ℚ) - 1) * (95 / 100)
    let lo : ℕ := pos.floor.toNat
    let frac : ℚ := pos - (lo : ℚ)
    let vlo := s.getD lo 0
    let vhi := s.getD (lo + 1) vlo
    some (vlo + frac * (vhi - vlo))

/-- The immutable process-wide state built once at startup (app.py lines
26-68): loaded records, the historical per-municipality aggregate, the
zero-padded ids found in the boundary shapes, and the colour-scale upper
bound. -/
structure Data where
  recs : List Rec
  muniAgg : List Agg
  availableIds : List String
  vmax : Option ℚ
deriving DecidableEq, Repr

/-- Startup load: rows are the parsed CSV rows, `featIds` the ids of the
geojson features (empty when the geojson file is absent).  Mirrors app.py
lines 26-68. -/
def load (rows : List Row) (featIds : List String) : Data :=
  let recs := rows.map loadRow
  let agg := muniAggOf recs
  { recs := recs
    muniAgg := agg
    availableIds := featIds.map zfill5
    vmax := quantile95 (agg.filterMap (·.tasa)) }

/-- A point of the temporal series (app.py lines 152-156): one per year of
the filtered set, carrying the summed cases and population and the derived
rate (`replace({0: nan})`: undefined exactly when the summed population is
0). -/
structure TPoint where
  year : ℤ
  casos : ℤ
  pob : ℤ
  tasa : Option ℚ
deriving DecidableEq, Repr

/-- A plotly figure, modelled by the data that determines it.  `emptyFig`
is the placeholder `go.Figure()` with only a title, produced by the
exception handler (app.py line 213). -/
inductive Fig where
  | mapF (locations : List String) (z : List ℚ) (customdata : List (String × ℚ))
      (zmax : Option ℚ)
  | timeF (pts : List TPoint)
  | distF (rates : List (Option ℚ))
  | boxF (pts : List (String × Option ℚ))
  | scatterF (pts : List (ℤ × Option ℚ × String × ℤ))
  | emptyFig (title : String)
deriving DecidableEq, Repr

/-- The summary statistics of app.py lines 196-200. -/
structure Summary where
  totalCasos : ℤ
  totalPob : ℤ
  tasaProm : Option ℚ
  municipiosAfectados : ℕ
  totalMun : ℕ
deriving DecidableEq, Repr

/-- The `stats-summary` panel: either the normal summary (with the echoed
year/region selection of app.py line 206) or the error paragraph of the
exception handler (line 214). -/
inductive StatsOut where
  | ok (s : Summary) (year : ℤ) (region : String)
  | err (msg : String)
deriving DecidableEq, Repr

/-- The six outputs of the callback (app.py lines 111-116). -/
structure Output where
  map : Fig
  time : Fig
  dist : Fig
  box : Fig
  scatter : Fig
  stats : StatsOut
deriving DecidableEq, Repr

/-- The year selection reaching the callback.  The dropdown supplies an
integer, but `int(selected_year)` (app.py line 124) can raise on other
values; `invalid` models a value that fails integer conversion. -/
inductive YearSel where
  | valid (y : ℤ)
  | invalid (s : String)
deriving DecidableEq, Repr

/-- `int(selected_year)`: the only fallible step of the callback's
recomputation in this model. -/
def parseYear : YearSel → Except String ℤ
  | .valid y => .ok y
  | .invalid s => .error ("invalid literal for int: " ++ s)

/-- Region filter (app.py line 123): everything for `"all"`, otherwise the
rows whose `NombreRegion` equals the selection exactly. -/
def filteredDf (d : Data) (region : String) : List Rec :=
  if region = "all" then d.recs else d.recs.filter (fun r => r.region = region)

/-- The rows feeding the choropleth (app.py lines 127-129): the historical
aggregate restricted to codes present in the boundary shapes — unless the
shape-id set is empty (falsy), in which case no restriction applies. -/
def mapDataOf (d : Data) : List Agg :=
  if d.availableIds = [] then d.muniAgg
  else d.muniAgg.filter (fun a => a.codigo ∈ d.availableIds)

/-- The choropleth figure (app.py lines 130-145): locations and z-values
(NaN rates shown as 0) from the historical aggregate, zmax from the global
95th percentile when that is truthy and positive. -/
def mapFigOf (d : Data) : Fig :=
  let md := mapDataOf d
  .mapF (md.map (·.codigo)) (md.map (fun a => a.tasa.getD 0))
    (md.map (fun a => (a.nombreMunicipio, a.tasa.getD 0)))
    (match d.vmax with
     | some v => if 0 < v then some v else none
     | none => none)

/-- `filtered_df.groupby("Año").agg(...)` plus the derived rate (app.py
lines 152-156): one point per distinct year of the filtered set, in
ascending year order. -/
def temporalData (recs : List Rec) : List TPoint :=
  (isort (fun a b : ℤ => a ≤ b) ((recs.map (·.year)).dedup)).map
    (fun y =>
      let g := recs.filter (fun r => r.year = y)
      let sc := (g.map (·.casos)).sum
      let sp := (g.map (·.pob)).sum
      { year := y
        casos := sc
        pob := sp
        tasa := if sp = 0 then none else some ((sc : ℚ) / (sp : ℚ) * 100000) })

/-- The summary block (app.py lines 196-200), computed over the filtered
set: total cases, total population, `tasa_prom` (NaN unless the total
population is strictly positive), the number of rows with cases > 0
(`(filtered_df["NumeroCasos"]>0).sum()`), and the number of distinct
non-NaN municipality codes (`nunique`). -/
def summaryStats (recs : List Rec) : Summary :=
  let tc := (recs.map (·.casos)).sum
  let tp := (recs.map (·.pob)).sum
  { totalCasos := tc
    totalPob := tp
    tasaProm := if 0 < tp then some ((tc : ℚ) / (tp : ℚ) * 100000) else none
    municipiosAfectados := recs.countP (fun r => decide (0 < r.casos))
    totalMun := ((recs.filterMap (·.codigo)).dedup).length }

/-- The body of the `try` block (app.py lines 122-209) once the year is
converted: filter, build the five figures and the summary. -/
def computeCore (d : Data) (y : ℤ) (region : String) : Output :=
  let filtered := filteredDf d region
  let yearDf := filtered.filter (fun r => r.year = y)
  { map := mapFigOf d
    time := .timeF (temporalData filtered)
    dist := .distF (yearDf.map (·.tasa))
    box := .boxF (filtered.map (fun r => (r.region, r.tasa)))
    scatter := .scatterF (yearDf.map (fun r => (r.pob, r.tasa, r.nombreMunicipio, r.casos)))
    stats := .ok (summaryStats filtered) y region }

/-- The `except` branch (app.py lines 211-214): one shared empty figure
with an error title for all five graph outputs, and an error paragraph for
the summary. -/
def errorOutput (e : String) : Output :=
  let t := "Error interno: " ++ e
  { map := .emptyFig t
    time := .emptyFig t
    dist := .emptyFig t
    box := .emptyFig t
    scatter := .emptyFig t
    stats := .err t }

/-- The callback `update_dashboard` (app.py lines 120-214): run the
recomputation, catching any failure into the uniform error output. -/
def update_dashboard (d : Data) (ys : YearSel) (region : String) : Output :=
  match parseYear ys with
  | .error e => errorOutput e
  | .ok y => computeCore d y region

/-- A sequence of view refreshes threading the process-wide state (the
module-level dataframes of app.py): each step receives the state, produces
its output, and passes the state on — the callback body never reassigns
the module-level data. -/
def refreshRun (d : Data) : List (YearSel × String) → Data × List Output
  | [] => (d, [])
  | q :: qs =>
    let o := update_dashboard d q.1 q.2
    let rest := refreshRun d qs
    (rest.1, o :: rest.2)

/-! ### List helper lemmas -/

theorem mem_insSorted (le : α → α → Bool) (x a : α) (l : List α) :
    a ∈ insSorted le x l ↔ a = x ∨ a ∈ l := by
  induction l with
  | nil => simp [insSorted]
  | cons y ys ih =>
    simp only [insSorted]
    split
    · simp
    · simp [ih]
      tauto

theorem mem_isort (le : α → α → Bool) (a : α) (l : List α) :
    a ∈ isort le l ↔ a ∈ l := by
  induction l with
  | nil => simp [isort]
  | cons x xs ih => simp [isort, mem_insSorted, ih]

theorem nodup_insSorted (le : α → α → Bool) (x : α) (l : List α)
    (hx : x ∉ l) (hl : l.Nodup) : (insSorted le x l).Nodup := by
  induction l with
  | nil => simp [insSorted]
  | cons y ys ih =>
    simp only [insSorted]
    split
    · exact List.nodup_cons.mpr ⟨hx, hl⟩
    · rcases List.nodup_cons.mp hl with ⟨hy, hys⟩
      refine List.nodup_cons.mpr ⟨?_, ih (fun h => hx (List.mem_cons_of_mem y h)) hys⟩
      rw [mem_insSorted]
      rintro (rfl | h)
      · exact hx (List.mem_cons_self y ys)
      · exact hy h

theorem nodup_isort (le : α → α → Bool) (l : List α) (hl : l.Nodup) :
    (isort le l).Nodup := by
  induction l with
  | nil => simp [isort]
  | cons x xs ih =>
    rcases List.nodup_cons.mp hl with ⟨hx, hxs⟩
    exact nodup_insSorted le x _ (fun h => hx ((mem_isort le x xs).mp h)) (ih hxs)

/-! ### Claim C1: per-record rate definedness -/

/-- Row with a negative population cell, reachable from a CSV containing a
parseable negative number. -/
def rowNegPob : Row :=
  { anio := 2020, codigoRaw := "5001", nombreMunicipio := "Medellin"
    regionRaw := none, casosRaw := some 2, pobRaw := some (-5) }

/-- C1 counterexample: the loaded record for `rowNegPob` has an undefined
rate although its population is -5 ≠ 0; the claimed "undefined iff
population = 0" fails because the coercions let negative numbers through
and the code masks on `NumeroPoblacionObjetivo > 0`. -/
theorem C1_counterexample :
    (loadRow rowNegPob).tasa = none ∧ (loadRow rowNegPob).pob ≠ 0 := by decide

/-- C1 (amended): for every loaded record, the derived rate is undefined
iff the population is not positive (equivalently, iff it is 0 whenever the
population is non-negative), and for a positive population it equals
`cases / population * 100000` exactly. -/
theorem C1_rate_definedness (r : Row) :
    ((loadRow r).tasa = none ↔ (loadRow r).pob ≤ 0) ∧
    (0 < (loadRow r).pob →
      (loadRow r).tasa
        = some (((loadRow r).casos : ℚ) / ((loadRow r).pob : ℚ) * 100000)) := by
  have hpob : (loadRow r).pob = coerceNum r.pobRaw := rfl
  have hcas : (loadRow r).casos = coerceNum r.casosRaw := rfl
  have htasa : (loadRow r).tasa
      = if 0 < coerceNum r.pobRaw then
          some ((coerceNum r.casosRaw : ℚ) / (coerceNum r.pobRaw : ℚ) * 100000)
        else none := rfl
  rw [htasa, hpob, hcas]
  constructor
  · split
    · simp
      omega
    · simp
      omega
  · intro h
    rw [if_pos h]

/-- Row with 2 cases over a population of 100000. -/
def rowPosPob : Row :=
  { anio := 2020, codigoRaw := "5001", nombreMunicipio := "M"
    regionRaw := none, casosRaw := some 2, pobRaw := some 100000 }

/-- C1 witness: a record with population 100000 and 2 cases has the
defined rate 2 per 100k. -/
theorem C1_witness :
    0 < (loadRow rowPosPob).pob ∧ (loadRow rowPosPob).tasa = some 2 := by
  refine ⟨by decide, ?_⟩
  have h := (C1_rate_definedness rowPosPob).2 (by decide)
  rw [h]
  have hc : (loadRow rowPosPob).casos = 2 := rfl
  have hp : (loadRow rowPosPob).pob = 100000 := rfl
  rw [hc, hp]
  norm_num

/-! ### Claim C9: numeric coercion at load time -/

/-- Row whose case-count cell holds the parseable negative number -7 and
whose population cell is missing. -/
def rowNegCasos : Row :=
  { anio := 2021, codigoRaw := "123", nombreMunicipio := "Y"
    regionRaw := some "R", casosRaw := some (-7), pobRaw := none }

/-- C9 counterexample: a parseable negative cell survives the coercion, so
the loaded case count is -7 < 0 — the claimed "always non-negative" fails
(`to_numeric(...).fillna(0).astype(int)` never clamps sign). -/
theorem C9_counterexample :
    (loadRow rowNegCasos).casos = -7 ∧ (loadRow rowNegCasos).casos < 0 := by decide

/-- C9 (amended): a missing or non-numeric case-count or population cell
coerces to 0 during loading (never an error — the coercion is total), so
the loaded fields are always integers, and they are non-negative whenever
the parsed source value is non-negative. -/
theorem C9_numeric_coercion (r : Row) :
    (r.casosRaw = none → (loadRow r).casos = 0) ∧
    (r.pobRaw = none → (loadRow r).pob = 0) ∧
    (∀ q, r.casosRaw = some q → (loadRow r).casos = ratTrunc q) ∧
    (∀ q, r.casosRaw = some q → 0 ≤ q → 0 ≤ (loadRow r).casos) ∧
    (∀ q, r.pobRaw = some q → 0 ≤ q → 0 ≤ (loadRow r).pob) := by
  have hcas : (loadRow r).casos = coerceNum r.casosRaw := rfl
  have hpob : (loadRow r).pob = coerceNum r.pobRaw := rfl
  have htr : ∀ q : ℚ, 0 ≤ q → 0 ≤ ratTrunc q := by
    intro q hq
    rw [ratTrunc, if_pos hq]
    exact Int.floor_nonneg.mpr hq
  refine ⟨?_, ?_, ?_, ?_, ?_⟩
  · intro h; rw [hcas, h]; rfl
  · intro h; rw [hpob, h]; rfl
  · intro q h; rw [hcas, h]; rfl
  · intro q h hq; rw [hcas, h]; exact htr q hq
  · intro q h hq; rw [hpob, h]; exact htr q hq

/-- C9 witness: a row with a missing case cell loads with 0 cases, and a
population cell holding 3 loads non-negative. -/
theorem C9_witness :
    (loadRow { anio := 2020, codigoRaw := "1", nombreMunicipio := "Z"
               regionRaw := none, casosRaw := none, pobRaw := some 3 : Row }).casos = 0 ∧
    0 ≤ (loadRow { anio := 2020, codigoRaw := "1", nombreMunicipio := "Z"
                   regionRaw := none, casosRaw := none,
                   pobRaw := some 3 : Row }).pob := by
  constructor
  · exact (C9_numeric_coercion _).1 rfl
  · exact (C9_numeric_coercion _).2.2.2.2 3 rfl (by norm_num)

/-! ### Claim C2: municipality-code normalization -/

theorem takeDigits_isDigit (l : List Char) : ∀ c ∈ takeDigits l, c.isDigit = true := by
  induction l with
  | nil => simp [takeDigits]
  | cons x xs ih =>
    simp only [takeDigits]
    split
    · intro c hc
      rcases List.mem_cons.mp hc with rfl | hc
      · assumption
      · exact ih c hc
    · simp

theorem firstRun_eq_none_iff (l : List Char) :
    firstRun l = none ↔ ∀ c ∈ l, c.isDigit = false := by
  induction l with
  | nil => simp [firstRun]
  | cons x xs ih =>
    simp only [firstRun]
    split
    · simp only [reduceCtorEq, false_iff]
      intro h
      have := h x (List.mem_cons_self x xs)
      simp_all
    · rw [ih]
      constructor
      · intro h c hc
        rcases List.mem_cons.mp hc with rfl | hc
        · simp_all
        · exact h c hc
      · intro h c hc
        exact h c (List.mem_cons_of_mem x hc)

theorem firstRun_isDigit (l r : List Char) (h : firstRun l = some r) :
    ∀ c ∈ r, c.isDigit = true := by
  induction l with
  | nil => simp [firstRun] at h
  | cons x xs ih =>
    simp only [firstRun] at h
    split at h
    · cases h
      intro c hc
      rcases List.mem_cons.mp hc with rfl | hc
      · assumption
      · exact takeDigits_isDigit xs c hc
    · exact ih h

theorem zfill5_mk_length (l : List Char) :
    (zfill5 (String.mk l)).length = max 5 l.length := by
  have hlen : (String.mk l).length = l.length := rfl
  rw [zfill5, hlen]
  split
  · have : (String.mk (List.replicate (5 - l.length) '0') ++ String.mk l)
        = String.mk (List.replicate (5 - l.length) '0' ++ l) := rfl
    rw [this]
    show (List.replicate (5 - l.length) '0' ++ l).length = max 5 l.length
    rw [List.length_append, List.length_replicate]
    omega
  · rw [hlen]
    omega

theorem zfill5_mk_data (l : List Char) :
    (zfill5 (String.mk l)).data = List.replicate (5 - l.length) '0' ++ l := by
  have hlen : (String.mk l).length = l.length := rfl
  rw [zfill5, hlen]
  split
  · rfl
  · have : 5 - l.length = 0 := by omega
    rw [this]
    rfl

theorem zfill5_mk_isDigit (l : List Char) (h : ∀ c ∈ l, c.isDigit = true) :
    ∀ c ∈ (zfill5 (String.mk l)).data, c.isDigit = true := by
  rw [zfill5_mk_data]
  intro c hc
  rcases List.mem_append.mp hc with hc | hc
  · rw [List.eq_of_mem_replicate hc]
    decide
  · exact h c hc

/-- C2 counterexample: a raw value whose first digit run has six digits is
normalized to a six-character string — `zfill(5)` pads but never
truncates, so "always a 5-character numeric string" fails. -/
theorem C2_counterexample :
    normCode "123456" = some "123456" ∧ ("123456" : String).length ≠ 5 := by decide

/-- C2 (amended): normalization extracts the first run of digits and
left-pads it with zeros to width 5; the result is a numeric string of
length `max 5 (run length)` — exactly 5 characters only when the run has
at most 5 digits — and is undefined iff the raw value contains no digit.
Moreover every municipality row feeding the choropleth originates from a
record whose code is defined (records with an undefined code are dropped
by the group-by and so excluded from map rendering). -/
theorem C2_code_normalization (s : String) :
    (normCode s = none ↔ ∀ c ∈ s.data, c.isDigit = false) ∧
    (∀ l t, firstRun s.data = some l → normCode s = some t →
      (∀ c ∈ t.data, c.isDigit = true) ∧ t.length = max 5 l.length) ∧
    (∀ rows featIds, ∀ a ∈ mapDataOf (load rows featIds),
      ∃ row ∈ rows, ∃ c, (loadRow row).codigo = some c ∧ a.codigo = zfill5 c) := by
  refine ⟨?_, ?_, ?_⟩
  · rw [normCode, Option.map_eq_none']
    exact firstRun_eq_none_iff s.data
  · intro l t hrun hnorm
    rw [normCode, hrun, Option.map_some'] at hnorm
    cases hnorm
    exact ⟨zfill5_mk_isDigit l (firstRun_isDigit s.data l hrun), zfill5_mk_length l⟩
  · intro rows featIds a ha
    have hagg : a ∈ muniAggOf (rows.map loadRow) := by
      rw [mapDataOf] at ha
      split at ha
      · exact ha
      · exact (List.mem_filter.mp ha).1
    rw [muniAggOf, List.mem_map] at hagg
    obtain ⟨c, hc, rfl⟩ := hagg
    rw [mem_isort, List.mem_dedup, List.mem_filterMap] at hc
    obtain ⟨rec, hrec, hcode⟩ := hc
    rw [List.mem_map] at hrec
    obtain ⟨row, hrow, rfl⟩ := hrec
    exact ⟨row, hrow, c, hcode, rfl⟩

/-- C2 witness: for the raw value "ab12", the first digit run is "12" and
the normalized code "00012" is all digits of length `max 5 2 = 5`. -/
theorem C2_witness :
    (∀ c ∈ ("00012" : String).data, c.isDigit = true) ∧
    ("00012" : String).length = max 5 (['1', '2'] : List Char).length :=
  (C2_code_normalization "ab12").2.1 ['1', '2'] "00012" rfl rfl

/-! ### Claim C4: time-series cases sum equals the total-cases statistic -/

theorem sum_map_ite_of_not_mem (a : ℤ) (x : ℤ) (ys : List ℤ) (h : x ∉ ys) :
    (ys.map (fun y => if x = y then a else 0)).sum = 0 := by
  induction ys with
  | nil => rfl
  | cons z zs ih =>
    have hxz : x ≠ z := fun hx => h (hx ▸ List.mem_cons_self z zs)
    have hzs : x ∉ zs := fun hx => h (List.mem_cons_of_mem z hx)
    simp [hxz, ih hzs]

theorem sum_map_ite_of_mem (a : ℤ) (x : ℤ) (ys : List ℤ) (hm : x ∈ ys)
    (hn : ys.Nodup) : (ys.map (fun y => if x = y then a else 0)).sum = a := by
  induction ys with
  | nil => cases hm
  | cons z zs ih =>
    rcases List.nodup_cons.mp hn with ⟨hz, hzs⟩
    rcases List.mem_cons.mp hm with rfl | hm
    · simp [sum_map_ite_of_not_mem a x zs hz]
    · have hxz : x ≠ z := fun hx => hz (hx ▸ hm)
      simp [hxz, ih hm hzs]

/-- Partitioning a sum over records by their year: summing a weight over
every fiber of a duplicate-free year list that covers the records gives
the total sum. -/
theorem sum_fiberwise (f : Rec → ℤ) (ys : List ℤ) (hn : ys.Nodup) :
    ∀ recs : List Rec, (∀ r ∈ recs, r.year ∈ ys) →
      (ys.map (fun y => ((recs.filter (fun r => r.year = y)).map f).sum)).sum
        = (recs.map f).sum := by
  intro recs
  induction recs with
  | nil => simp
  | cons r rs ih =>
    intro hall
    have hr : r.year ∈ ys := hall r (List.mem_cons_self r rs)
    have hrs : ∀ x ∈ rs, x.year ∈ ys := fun x hx => hall x (List.mem_cons_of_mem r hx)
    have hsplit : ∀ y : ℤ,
        (((r :: rs).filter (fun x => x.year = y)).map f).sum
          = (if r.year = y then f r else 0)
            + ((rs.filter (fun x => x.year = y)).map f).sum := by
      intro y
      rw [List.filter_cons]
      split
      · simp_all
      · simp_all
    calc (ys.map (fun y => (((r :: rs).filter (fun x => x.year = y)).map f).sum)).sum
        = (ys.map (fun y => (if r.year = y then f r else 0)
            + ((rs.filter (fun x => x.year = y)).map f).sum)).sum := by
          congr 1
          exact List.map_congr_left (fun y _ => hsplit y)
      _ = (ys.map (fun y => if r.year = y then f r else 0)).sum
            + (ys.map (fun y => ((rs.filter (fun x => x.year = y)).map f).sum)).sum := by
          rw [← List.sum_map_add]
      _ = f r + (rs.map f).sum := by
          rw [sum_map_ite_of_mem (f r) r.year ys hr hn, ih hrs]
      _ = ((r :: rs).map f).sum := by simp

/-- The ascending duplicate-free year list used by `temporalData`. -/
theorem temporal_years_cover (recs : List Rec) :
    (isort (fun a b : ℤ => a ≤ b) ((recs.map (·.year)).dedup)).Nodup
      ∧ ∀ r ∈ recs, r.year ∈ isort (fun a b : ℤ => a ≤ b) ((recs.map (·.year)).dedup) := by
  constructor
  · exact nodup_isort _ _ (List.nodup_dedup _)
  · intro r hr
    rw [mem_isort, List.mem_dedup, List.mem_map]
    exact ⟨r, hr, rfl⟩

/-- C4: for every loaded data set and region filter, the per-year case
counts of the time series (app.py lines 152-156) sum to the total-cases
summary statistic (line 196), and these are exactly the values carried by
the time-series figure and the summary panel of the refresh output. -/
theorem C4_timeseries_total (d : Data) (y : ℤ) (r : String) :
    ((temporalData (filteredDf d r)).map TPoint.casos).sum
      = (summaryStats (filteredDf d r)).totalCasos ∧
    (update_dashboard d (.valid y) r).time = .timeF (temporalData (filteredDf d r)) ∧
    (update_dashboard d (.valid y) r).stats = .ok (summaryStats (filteredDf d r)) y r := by
  refine ⟨?_, rfl, rfl⟩
  obtain ⟨hn, hcover⟩ := temporal_years_cover (filteredDf d r)
  have := sum_fiberwise (fun rec => rec.casos) _ hn (filteredDf d r) hcover
  rw [temporalData, List.map_map]
  exact this

/-! ### Claim C5: summary statistics -/

/-- Two records of the same municipality in different years, with
negative population cells. -/
def rowsC5 : List Row :=
  [{ anio := 2020, codigoRaw := "5001", nombreMunicipio := "Medellin"
     regionRaw := some "Valle", casosRaw := some 1, pobRaw := some (-3) },
   { anio := 2021, codigoRaw := "5001", nombreMunicipio := "Medellin"
     regionRaw := some "Valle", casosRaw := some 2, pobRaw := some (-3) }]

/-- C5 counterexample: with two rows of the *same* municipality (both with
cases > 0) the summary reports `municipiosAfectados = 2` — the code counts
records, not municipalities (`(filtered_df["NumeroCasos"]>0).sum()`), while
the number of distinct municipalities with cases > 0 is 1.  The same data
also shows the average rate undefined although the total population is
-6 ≠ 0 (the code tests `total_pob > 0`, not `≠ 0`). -/
theorem C5_counterexample :
    (update_dashboard (load rowsC5 []) (.valid 2020) "all").stats
      = .ok { totalCasos := 3, totalPob := -6, tasaProm := none
              municipiosAfectados := 2, totalMun := 1 } 2020 "all" ∧
    ((((filteredDf (load rowsC5 []) "all").filter
        (fun r => decide (0 < r.casos))).filterMap (·.codigo)).dedup).length = 1 ∧
    (2 : ℕ) ≠ 1 ∧ (-6 : ℤ) ≠ 0 := by decide

/-- C5 (amended): for every (year, region) selection the summary is
computed over the filtered set (not the year slice) and reports: total
cases, total population, average rate `total cases/total population*100000`
(undefined when the total population is not positive), the count of
*records* with cases > 0 (not of distinct municipalities), and the count
of distinct (defined) municipality codes. -/
theorem C5_summary_stats (d : Data) (y : ℤ) (r : String) :
    ∃ s, (update_dashboard d (.valid y) r).stats = .ok s y r ∧
      s.totalCasos = ((filteredDf d r).map (·.casos)).sum ∧
      s.totalPob = ((filteredDf d r).map (·.pob)).sum ∧
      s.tasaProm = (if 0 < s.totalPob then
          some ((s.totalCasos : ℚ) / (s.totalPob : ℚ) * 100000) else none) ∧
      s.municipiosAfectados
        = ((filteredDf d r).filter (fun rec => decide (0 < rec.casos))).length ∧
      s.totalMun = (((filteredDf d r).filterMap (·.codigo)).dedup).length := by
  refine ⟨summaryStats (filteredDf d r), rfl, rfl, rfl, rfl, ?_, rfl⟩
  exact List.countP_eq_length_filter _ _

/-! ### Claims C3 and C10: the map ignores the selection -/

/-- C3: for any two selected years and a fixed region, the refresh
produces the same map figure — the choropleth (app.py lines 127-145) is
built from `muni_agg`, the all-years historical aggregate, and never reads
the year selection. -/
theorem C3_map_year_independent (d : Data) (y1 y2 : ℤ) (r : String) :
    (update_dashboard d (.valid y1) r).map = (update_dashboard d (.valid y2) r).map := rfl

/-- C10: for any two selected regions and a fixed year, the refresh
produces the same map figure, and that figure is exactly the one computed
from the unfiltered historical aggregate restricted to the boundary-shape
codes — the region filter has no effect on the map either. -/
theorem C10_map_region_independent (d : Data) (y : ℤ) (r1 r2 : String) :
    (update_dashboard d (.valid y) r1).map = (update_dashboard d (.valid y) r2).map ∧
    (update_dashboard d (.valid y) r1).map = mapFigOf d := ⟨rfl, rfl⟩

/-! ### Claim C6: purity / idempotence of the view refresh -/

/-- C6: a sequence of view refreshes leaves the process-wide loaded data
unchanged and produces, for each request, exactly the output of the pure
function `update_dashboard` of (loaded data, year, region) — so two
invocations with identical selections anywhere in the sequence yield
identical outputs, with no hidden mutable state carried between them. -/
theorem C6_refresh_pure (d : Data) (qs : List (YearSel × String)) :
    refreshRun d qs = (d, qs.map (fun q => update_dashboard d q.1 q.2)) := by
  induction qs with
  | nil => rfl
  | cons q qs ih => simp [refreshRun, ih]

/-! ### Claim C7: uniform error handling -/

/-- C7: whenever the recomputation fails (in this model, when the year
value fails integer conversion), the callback returns the uniform error
output: one shared placeholder figure for all five graphs and a plain-text
error paragraph — nothing is partially updated and no failure escapes
(`update_dashboard` is total). -/
theorem C7_error_uniform (d : Data) (ys : YearSel) (r : String) (e : String)
    (h : parseYear ys = .error e) :
    update_dashboard d ys r =
      { map := .emptyFig ("Error interno: " ++ e)
        time := .emptyFig ("Error interno: " ++ e)
        dist := .emptyFig ("Error interno: " ++ e)
        box := .emptyFig ("Error interno: " ++ e)
        scatter := .emptyFig ("Error interno: " ++ e)
        stats := .err ("Error interno: " ++ e) } := by
  cases ys with
  | valid y => simp [parseYear] at h
  | invalid s =>
    rw [update_dashboard, h]
    rw [parseYear] at h
    cases h
    rfl

/-- C7 witness: an unconvertible year value yields the uniform error
output on empty loaded data. -/
theorem C7_witness :
    parseYear (.invalid "abc") = .error "invalid literal for int: abc" ∧
    update_dashboard (load [] []) (.invalid "abc") "all" =
      { map := .emptyFig "Error interno: invalid literal for int: abc"
        time := .emptyFig "Error interno: invalid literal for int: abc"
        dist := .emptyFig "Error interno: invalid literal for int: abc"
        box := .emptyFig "Error interno: invalid literal for int: abc"
        scatter := .emptyFig "Error interno: invalid literal for int: abc"
        stats := .err "Error interno: invalid literal for int: abc" } :=
  ⟨rfl, C7_error_uniform (load [] []) (.invalid "abc") "all"
    "invalid literal for int: abc" rfl⟩

/-! ### Claim C8: unknown region degrades to empty artifacts -/

/-- C8: a region name that is neither `"all"` nor the region of any loaded
record filters down to zero records, and the refresh still returns the
well-formed ok-branch output: empty time series, histogram, boxplot and
scatter, an all-zero summary with undefined average rate — not the error
output (the map keeps its selection-independent content). -/
theorem C8_unknown_region (d : Data) (y : ℤ) (r : String)
    (hall : r ≠ "all") (hnone : ∀ rec ∈ d.recs, rec.region ≠ r) :
    filteredDf d r = [] ∧
    update_dashboard d (.valid y) r =
      { map := mapFigOf d
        time := .timeF []
        dist := .distF []
        box := .boxF []
        scatter := .scatterF []
        stats := .ok { totalCasos := 0, totalPob := 0, tasaProm := none
                       municipiosAfectados := 0, totalMun := 0 } y r } := by
  have hf : filteredDf d r = [] := by
    rw [filteredDf, if_neg hall, List.filter_eq_nil_iff]
    intro a ha
    simpa using hnone a ha
  refine ⟨hf, ?_⟩
  show computeCore d y r = _
  rw [computeCore, hf]
  rfl

/-- Loaded data with a single record in region "Occidente". -/
def dataC8 : Data :=
  load [{ anio := 2020, codigoRaw := "1", nombreMunicipio := "A"
          regionRaw := some "Occidente", casosRaw := some 1, pobRaw := some 10 }] []

/-- C8 witness: filtering `dataC8` by the absent region "Oriente" yields
zero records and the well-formed empty-artifact output. -/
theorem C8_witness :
    filteredDf dataC8 "Oriente" = [] ∧
    update_dashboard dataC8 (.valid 2020) "Oriente" =
      { map := mapFigOf dataC8
        time := .timeF []
        dist := .distF []
        box := .boxF []
        scatter := .scatterF []
        stats := .ok { totalCasos := 0, totalPob := 0, tasaProm := none
                       municipiosAfectados := 0, totalMun := 0 } 2020 "Oriente" } :=
  C8_unknown_region dataC8 2020 "Oriente" (by decide) (by decide)

end MMA
